import Mathlib

/-!
Shallow embedding of the risk-dash portfolio dashboard
(`api_manager.py`, `cache_manager.py`, `portfolio.py`).

Python dicts are modelled as insertion-ordered association lists
(`ainsert` updates in place or appends, as dict assignment does;
`aerase` removes the key, as `del` does).  Python exceptions are
modelled with `Except PyErr`; where code mutates state and then
raises, the function returns the mutated state together with an
optional error.  JSON values are the inductive `JVal`; Python
truthiness of a value is `JVal.truthy`.
-/

/-- The Python exceptions that the modelled code can raise. -/
inductive PyErr where
  /-- `ValueError("No portfolio data received from the API yet.")` /
      `ValueError("No historical data received from the API yet.")` -/
  | valueErrorNoData
  /-- `ZeroDivisionError` from `x / 0`. -/
  | zeroDivisionError
  /-- `json.JSONDecodeError` from `json.load` on malformed content. -/
  | jsonDecodeError
  /-- `AttributeError` from accessing an attribute that does not exist
      (e.g. `None.strftime`, `self.historical_data_path`). -/
  | attributeError
  /-- `KeyError` from `d[k]` on a missing key. -/
  | keyError
  /-- `NameError` from referencing an undefined global (e.g. `st` in a
      module that never imports streamlit). -/
  | nameError
deriving DecidableEq, Repr

/-- JSON values, the payloads moved through the cache. -/
inductive JVal where
  | null
  | bool (b : Bool)
  | num (q : Rat)
  | str (s : String)
  | arr (elems : List JVal)
  | obj (fields : List (String × JVal))

/-- Python truthiness of a JSON value: `None`, `False`, `0`, `""`,
`[]` and `{}` are falsy, everything else truthy. -/
def JVal.truthy : JVal → Bool
  | .null => false
  | .bool b => b
  | .num q => decide (q ≠ 0)
  | .str s => decide (s ≠ "")
  | .arr elems => !elems.isEmpty
  | .obj fields => !fields.isEmpty

section AList

variable {K : Type} {V : Type} [DecidableEq K]

/-- `d.get(k, None)` on a dict modelled as an association list. -/
def alookup : List (K × V) → K → Option V
  | [], _ => none
  | (k', v') :: rest, k => if k' = k then some v' else alookup rest k

/-- `d[k] = v`: update the existing entry in place, else append. -/
def ainsert : List (K × V) → K → V → List (K × V)
  | [], k, v => [(k, v)]
  | (k', v') :: rest, k, v =>
      if k' = k then (k, v) :: rest else (k', v') :: ainsert rest k v

/-- `del d[k]` (no-op when the key is absent, matching the guarded
`if k in d: del d[k]` idiom used by the code). -/
def aerase : List (K × V) → K → List (K × V)
  | [], _ => []
  | (k', v') :: rest, k =>
      if k' = k then rest else (k', v') :: aerase rest k

/-- `d[k]`: indexing that raises `KeyError` on a missing key. -/
def pyIndex (d : List (K × V)) (k : K) : Except PyErr V :=
  match alookup d k with
  | some v => .ok v
  | none => .error .keyError

theorem alookup_ainsert_self (d : List (K × V)) (k : K) (v : V) :
    alookup (ainsert d k v) k = some v := by
  induction d with
  | nil => simp [ainsert, alookup]
  | cons hd tl ih =>
      obtain ⟨k', v'⟩ := hd
      by_cases h : k' = k <;> simp [ainsert, alookup, h, ih]

theorem alookup_ainsert_ne (d : List (K × V)) (k k' : K) (v : V)
    (h : k ≠ k') : alookup (ainsert d k v) k' = alookup d k' := by
  induction d with
  | nil => simp [ainsert, alookup, h]
  | cons hd tl ih =>
      obtain ⟨k₀, v₀⟩ := hd
      by_cases h₀ : k₀ = k
      · subst h₀
        simp [ainsert, alookup, h]
      · by_cases h₁ : k₀ = k'
        · subst h₁
          simp [ainsert, alookup, h₀]
        · simp [ainsert, alookup, h₀, h₁, ih]

theorem ainsert_ne_nil (d : List (K × V)) (k : K) (v : V) :
    ainsert d k v ≠ [] := by
  cases d with
  | nil => simp [ainsert]
  | cons hd tl =>
      obtain ⟨k', v'⟩ := hd
      by_cases h : k' = k <;> simp [ainsert, h]

end AList

/-- A wall-clock timestamp (what `datetime.now()` yields, truncated to
seconds as `%Y-%m-%d %H:%M:%S` formatting does). -/
structure Timestamp where
  year : Nat
  month : Nat
  day : Nat
  hour : Nat
  minute : Nat
  second : Nat
deriving DecidableEq, Repr

/-- Zero-pad a number to two digits, as `strftime` does for
`%m %d %H %M %S`. -/
def pad2 (n : Nat) : String :=
  if n < 10 then "0" ++ toString n else toString n

/-- `t.strftime("%Y-%m-%d %H:%M:%S")`. -/
def fmtTimestamp (t : Timestamp) : String :=
  toString t.year ++ "-" ++ pad2 t.month ++ "-" ++ pad2 t.day ++ " "
    ++ pad2 t.hour ++ ":" ++ pad2 t.minute ++ ":" ++ pad2 t.second

namespace IBKRApp

/-- The slice of an `ibapi` `Contract` the session reads. -/
structure Contract where
  symbol : String
  secType : String
  currency : String
deriving DecidableEq, Repr

/-- One historical bar as delivered to the `historicalData` callback. -/
structure Bar where
  date : String
  close : Rat
deriving DecidableEq, Repr

/-- The per-symbol record kept in `live_portfolio`. -/
structure StockDetails where
  market_value : Rat
  currency : String
deriving DecidableEq, Repr

/-- The mutable session state of `IBKRApp` (`api_manager.py`), the
fields touched by the modelled callbacks and accessors. -/
structure State where
  live_portfolio : List (String × StockDetails)
  net_liquidation : Rat
  historical_data : List (String × List (String × Rat))
  historical_data_requests : List (Nat × String)
  reqId_counter : Nat
deriving DecidableEq

/-- The `__init__` values of the modelled fields. -/
def State.init : State :=
  { live_portfolio := []
    net_liquidation := 0
    historical_data := []
    historical_data_requests := []
    reqId_counter := 0 }

/-- `IBKRApp.request_historical_data`: bump the request-id counter,
record `reqId → symbol`, and return the id the outgoing
`reqHistoricalData` call uses. -/
def request_historical_data (s : State) (c : Contract) : State × Nat :=
  let reqId := s.reqId_counter + 1
  ({ s with
      reqId_counter := reqId
      historical_data_requests :=
        ainsert s.historical_data_requests reqId c.symbol },
    reqId)

/-- `IBKRApp.updatePortfolio` callback: record market value and
currency in `live_portfolio` only for `secType == "STK"`, then issue a
historical-data request for the contract unconditionally. -/
def updatePortfolio (s : State) (c : Contract) (marketValue : Rat) :
    State × Nat :=
  let s' :=
    if c.secType = "STK" then
      { s with
          live_portfolio :=
            ainsert s.live_portfolio c.symbol
              { market_value := marketValue, currency := c.currency } }
    else s
  request_historical_data s' c

/-- `IBKRApp.updateAccountValue` callback (only the
`"NetLiquidation"` key mutates state). -/
def updateAccountValue (s : State) (key : String) (val : Rat) : State :=
  if key = "NetLiquidation" then { s with net_liquidation := val } else s

/-- `IBKRApp.historicalData` callback: look the request id up in
`historical_data_requests`; on a miss return with no change, otherwise
store `bar.date → bar.close` into that symbol's series. -/
def historicalData (s : State) (reqId : Nat) (bar : Bar) : State :=
  match alookup s.historical_data_requests reqId with
  | none => s
  | some symbol =>
      let series := (alookup s.historical_data symbol).getD []
      { s with
          historical_data :=
            ainsert s.historical_data symbol
              (ainsert series bar.date bar.close) }

/-- Python `x / y`: raises `ZeroDivisionError` when `y = 0`. -/
def pyDiv (x y : Rat) : Except PyErr Rat :=
  if y = 0 then .error .zeroDivisionError else .ok (x / y)

/-- The dict comprehension inside `get_live_portfolio`, evaluated
entry by entry; the first division by zero aborts it. -/
def computeWeights (nl : Rat) :
    List (String × StockDetails) → Except PyErr (List (String × Rat))
  | [] => .ok []
  | (sym, det) :: rest => do
      let w ← pyDiv det.market_value nl
      let ws ← computeWeights nl rest
      .ok ((sym, w) :: ws)

/-- `IBKRApp.get_live_portfolio`: raise the "no data yet" `ValueError`
only when `live_portfolio` is empty, otherwise divide each market
value by `net_liquidation`. -/
def get_live_portfolio (s : State) : Except PyErr (List (String × Rat)) :=
  if s.live_portfolio = [] then .error .valueErrorNoData
  else computeWeights s.net_liquidation s.live_portfolio

/-- `IBKRApp.get_historical_data`: raise the "no data yet"
`ValueError` when the map is empty, else return it. -/
def get_historical_data (s : State) :
    Except PyErr (List (String × List (String × Rat))) :=
  if s.historical_data = [] then .error .valueErrorNoData
  else .ok s.historical_data

end IBKRApp

/-- Content of a cache file on disk: missing, present but not valid
JSON, or present with a parsed value (JSON serialisation of the
modelled payload round-trips to the payload). -/
inductive FileContent (α : Type) where
  | absent
  | malformed
  | wellFormed (data : α)
deriving DecidableEq

namespace CacheManager

/-- The strategy file's parsed content: the `portfolio` field plus the
`last_cached_time` string. -/
structure StrategyFile where
  portfolio : JVal
  last_cached_time : String

/-- The state a `CacheManager` (`cache_manager.py`) reads and writes:
the three in-memory caches created by `__init__` on the session state,
the two extra session-state attributes that only `clear_cache`
assigns, and the three backing files. -/
structure State where
  portfolio_historical_cache : List (String × JVal)
  spy_historical_cache : JVal
  strategy_cache : List (String × JVal)
  historical_data_cache : Option (List (String × JVal))
  spy_data_cache : Option (List (String × JVal))
  diskPortfolio : FileContent (List (String × JVal))
  diskSpy : FileContent JVal
  diskStrategy : FileContent StrategyFile

/-- `CacheManager.__init__` against a fresh session state and the
given disk contents: the in-memory caches start empty. -/
def State.init (dp : FileContent (List (String × JVal)))
    (ds : FileContent JVal) (dst : FileContent StrategyFile) : State :=
  { portfolio_historical_cache := []
    spy_historical_cache := .obj []
    strategy_cache := []
    historical_data_cache := none
    spy_data_cache := none
    diskPortfolio := dp
    diskSpy := ds
    diskStrategy := dst }

/-- A simulated process restart: a fresh session state (in-memory
caches reinitialised by `__init__`) over the same disk contents. -/
def restart (s : State) : State :=
  State.init s.diskPortfolio s.diskSpy s.diskStrategy

/-- `CacheManager.set_historical_data`: write the ticker's data into
the in-memory mapping and persist the whole mapping to the portfolio
cache file. -/
def set_historical_data (s : State) (ticker : String) (data : JVal) :
    State :=
  let mem := ainsert s.portfolio_historical_cache ticker data
  { s with
      portfolio_historical_cache := mem
      diskPortfolio := .wellFormed mem }

/-- The disk-fallback path of `get_historical_data`: `get_from_disk`
(returns `None` when the file is missing, raises `JSONDecodeError`
when malformed), then `if data and ticker in data: return
data[ticker]`, else `return None`. -/
def disk_historical (s : State) (ticker : String) : Except PyErr JVal :=
  match s.diskPortfolio with
  | .absent => .ok .null
  | .malformed => .error .jsonDecodeError
  | .wellFormed d =>
      if d.isEmpty then .ok .null
      else
        match alookup d ticker with
        | some v => .ok v
        | none => .ok .null

/-- `CacheManager.get_historical_data`: return the in-memory value
when it is truthy, otherwise fall back to the disk file; `JVal.null`
(Python `None`) is the not-found signal. -/
def get_historical_data (s : State) (ticker : String) :
    Except PyErr JVal :=
  match alookup s.portfolio_historical_cache ticker with
  | some v => if v.truthy then .ok v else disk_historical s ticker
  | none => disk_historical s ticker

/-- `CacheManager.set_spy_data`: replace the in-memory SPY cache
wholesale and persist it to the SPY cache file. -/
def set_spy_data (s : State) (data : JVal) : State :=
  { s with
      spy_historical_cache := data
      diskSpy := .wellFormed data }

/-- `CacheManager.get_spy_data`: return the in-memory value when
truthy, otherwise `get_from_disk` (Python `None` = `JVal.null` when
the file is missing; `JSONDecodeError` when malformed). -/
def get_spy_data (s : State) : Except PyErr JVal :=
  if s.spy_historical_cache.truthy then .ok s.spy_historical_cache
  else
    match s.diskSpy with
    | .absent => .ok .null
    | .malformed => .error .jsonDecodeError
    | .wellFormed v => .ok v

/-- `CacheManager.set_strategy`: write
`{'portfolio': p, 'last_cached_time': now.strftime('%Y-%m-%d %H:%M:%S')}`
to the strategy cache file. -/
def set_strategy (s : State) (p : JVal) (now : Timestamp) : State :=
  { s with
      diskStrategy :=
        .wellFormed { portfolio := p,
                      last_cached_time := fmtTimestamp now } }

/-- The JSON object `set_strategy` serialises to disk. -/
def strategyFileJson (p : JVal) (now : Timestamp) : JVal :=
  .obj [("portfolio", p), ("last_cached_time", .str (fmtTimestamp now))]

/-- `CacheManager.load_strategy_cache`: read and parse the strategy
file.  On `FileNotFoundError` or `JSONDecodeError` the handler calls
`st.warning`, but `cache_manager.py` never imports streamlit, so the
handler itself raises `NameError`. -/
def load_strategy_cache (s : State) :
    Except PyErr (JVal × String) :=
  match s.diskStrategy with
  | .absent => .error .nameError
  | .malformed => .error .nameError
  | .wellFormed f => .ok (f.portfolio, f.last_cached_time)

/-- `CacheManager.clear_cache`: assigns two session-state attributes
(`historical_data_cache`, `spy_data_cache`) that no reader ever uses,
then raises `AttributeError` at `self.historical_data_path`, an
attribute `__init__` never defines — before any file is deleted or
any actual in-memory cache is emptied.  Returns the mutated state and
the raised error. -/
def clear_cache (s : State) : State × Option PyErr :=
  ({ s with historical_data_cache := some [], spy_data_cache := some [] },
    some .attributeError)

end CacheManager

namespace Portfolio

/-- One committed holding: `{'weight': w, 'strategy': s}`. -/
structure StockEntry where
  weight : Rat
  strategy : String
deriving DecidableEq, Repr

/-- The state of a `Portfolio` (`portfolio.py`): the committed
holdings, the staged per-ticker historical data, and the two
timestamps (`None` on a fresh instance). -/
structure State where
  portfolio : List (String × StockEntry)
  historical_data : List (String × JVal)
  last_refresh_time : Option Timestamp
  last_saved_time : Option Timestamp

/-- `Portfolio.__init__`: everything empty, both timestamps `None`. -/
def State.init : State :=
  { portfolio := []
    historical_data := []
    last_refresh_time := none
    last_saved_time := none }

/-- `Portfolio.add_stock`. -/
def add_stock (p : State) (ticker : String) (weight : Rat)
    (strategy : String) : State :=
  { p with
      portfolio :=
        ainsert p.portfolio ticker
          { weight := weight, strategy := strategy } }

/-- `Portfolio.update_stock` with its two optional arguments; a ticker
not in the portfolio is left untouched. -/
def update_stock (p : State) (ticker : String) (weight : Option Rat)
    (strategy : Option String) : State :=
  match alookup p.portfolio ticker with
  | none => p
  | some e =>
      let e := match weight with
        | some w => { e with weight := w }
        | none => e
      let e := match strategy with
        | some σ => { e with strategy := σ }
        | none => e
      { p with portfolio := ainsert p.portfolio ticker e }

/-- `Portfolio.remove_stock`: drop the ticker from the committed
holdings and from the historical data (each guarded by membership). -/
def remove_stock (p : State) (ticker : String) : State :=
  { p with
      portfolio := aerase p.portfolio ticker
      historical_data := aerase p.historical_data ticker }

/-- `Portfolio.set_historical_data`. -/
def set_historical_data (p : State) (ticker : String) (data : JVal) :
    State :=
  { p with historical_data := ainsert p.historical_data ticker data }

/-- JSON serialisation of the committed holdings, as `json.dump`
writes them inside `save_cache`. -/
def encodePortfolio (holdings : List (String × StockEntry)) : JVal :=
  .obj (holdings.map fun te =>
    (te.1, .obj [("weight", .num te.2.weight),
                 ("strategy", .str te.2.strategy)]))

/-- `Portfolio.save_cache` at wall-clock time `now`: formats
`self.last_saved_time` BEFORE it is ever assigned (raising
`AttributeError` on a fresh portfolio where it is still `None`),
writes the file, and only then assigns `datetime.now()` to
`last_saved_time` — so the persisted timestamp is the previous one.
Returns the file content written together with the new state. -/
def save_cache (p : State) (now : Timestamp) :
    Except PyErr (JVal × State) :=
  match p.last_saved_time with
  | none => .error .attributeError
  | some t0 =>
      .ok (.obj [("portfolio", encodePortfolio p.portfolio),
                 ("last_saved_time", .str (fmtTimestamp t0))],
           { p with last_saved_time := some now })

/-- `update_portfolio(portfolio, holdings, historical_data)` from
`portfolio.py` (the reconciliation step).  The streamlit form is
modelled by `submitted` (whether the user pressed Submit this run)
and `selected` (the strategy chosen in each new ticker's dropdown).
Python's unordered set iteration is modelled by first-seen list
order; `holdings[t]` / `historical_data[t]` indexing is `pyIndex`
(raises `KeyError` on a missing key). -/
def update_portfolio (p₀ : State) (holdings : List (String × Rat))
    (historical_data : List (String × JVal)) (now : Timestamp)
    (submitted : Bool) (selected : String → String) :
    Except PyErr State := do
  let p := { p₀ with last_refresh_time := some now }
  let old_tickers := p.portfolio.map (·.1)
  let new_tickers := (holdings.filter (fun kv => kv.2 ≠ 0)).map (·.1)
  let removed := old_tickers.filter (fun t => ¬ t ∈ new_tickers)
  let p := removed.foldl remove_stock p
  let added := new_tickers.filter (fun t => ¬ t ∈ old_tickers)
  let p ←
    if added = [] then pure p
    else do
      let p ←
        if submitted then
          added.foldlM (fun q t => do
            let w ← pyIndex holdings t
            pure (add_stock q t w (selected t))) p
        else pure p
      added.foldlM (fun q t => do
        let h ← pyIndex historical_data t
        pure (set_historical_data q t h)) p
  let inter := new_tickers.filter (fun t => t ∈ old_tickers)
  inter.foldlM (fun q t => do
    let w ← pyIndex holdings t
    let h ← pyIndex historical_data t
    pure (set_historical_data (update_stock q t (some w) none) t h)) p

end Portfolio

/-- Field lookup on a JSON object (`none` on a non-object). -/
def JVal.field : JVal → String → Option JVal
  | .obj fields, k => alookup fields k
  | _, _ => none

theorem except_bind_ok {ε α β : Type} (a : α) (f : α → Except ε β) :
    (Except.ok a >>= f) = f a := rfl

theorem ainsert_isEmpty {K V : Type} [DecidableEq K]
    (d : List (K × V)) (k : K) (v : V) :
    (ainsert d k v).isEmpty = false := by
  cases d with
  | nil => simp [ainsert]
  | cons hd tl =>
      obtain ⟨k', v'⟩ := hd
      by_cases h : k' = k <;> simp [ainsert, h]

/- ------------------------------------------------------------------ -/
/- Claims                                                              -/
/- ------------------------------------------------------------------ -/

/-- C1 (counterexample): a session state holding one recorded stock
(`live_portfolio` non-empty) with `net_liquidation` still `0`.
`get_live_portfolio` fails with `ZeroDivisionError`, not with the
"no data yet" `ValueError` the claim requires. -/
theorem C1_counterexample :
    IBKRApp.get_live_portfolio
      { live_portfolio :=
          [("AAPL", { market_value := 100, currency := "USD" })]
        net_liquidation := 0
        historical_data := []
        historical_data_requests := []
        reqId_counter := 0 }
      = .error .zeroDivisionError
    ∧ (Except.error PyErr.zeroDivisionError :
        Except PyErr (List (String × Rat))) ≠ .error .valueErrorNoData := by
  refine ⟨rfl, by simp⟩

/-- C1 (amended): whenever at least one holdings update has been
recorded but net liquidation is still zero, `get_live_portfolio`
fails with the division-by-zero error, not with the "no data yet"
condition; the "no data yet" `ValueError` is raised only when
`live_portfolio` is empty. -/
theorem C1_amended (s : IBKRApp.State)
    (hne : s.live_portfolio ≠ []) (hnl : s.net_liquidation = 0) :
    IBKRApp.get_live_portfolio s = .error .zeroDivisionError := by
  unfold IBKRApp.get_live_portfolio
  rw [if_neg hne, hnl]
  cases h : s.live_portfolio with
  | nil => exact absurd h hne
  | cons hd tl =>
      obtain ⟨sym, det⟩ := hd
      simp [IBKRApp.computeWeights, IBKRApp.pyDiv, Bind.bind, Except.bind]

/-- C1 (witness): the amended statement at a one-stock state with
zero net liquidation. -/
theorem C1_witness :
    IBKRApp.get_live_portfolio
      { live_portfolio :=
          [("AAPL", { market_value := 100, currency := "USD" })]
        net_liquidation := 0
        historical_data := []
        historical_data_requests := []
        reqId_counter := 7 }
      = .error .zeroDivisionError :=
  C1_amended _ (by decide) rfl

/-- C2 (counterexample): a cache whose portfolio-history backing file
exists but holds malformed JSON; the historical-data read raises
`JSONDecodeError` to its caller instead of returning the not-found
signal (`None`, i.e. `JVal.null`). -/
theorem C2_counterexample :
    CacheManager.get_historical_data
      (CacheManager.State.init .malformed .malformed .absent) "AAPL"
      = .error .jsonDecodeError
    ∧ (Except.error PyErr.jsonDecodeError : Except PyErr JVal) ≠ .ok .null := by
  refine ⟨rfl, by simp⟩

/-- C2 (amended): a cache read that falls back to a backing file
containing malformed JSON does NOT return the not-found signal: both
the historical-data read (on a memory miss) and the SPY read (when
the in-memory copy is falsy) raise the JSON decode error to the
caller. -/
theorem C2_amended (s : CacheManager.State) (ticker : String)
    (hmem : alookup s.portfolio_historical_cache ticker = none)
    (hdp : s.diskPortfolio = .malformed)
    (hspy : s.spy_historical_cache.truthy = false)
    (hds : s.diskSpy = .malformed) :
    CacheManager.get_historical_data s ticker = .error .jsonDecodeError
    ∧ CacheManager.get_spy_data s = .error .jsonDecodeError := by
  constructor
  · unfold CacheManager.get_historical_data CacheManager.disk_historical
    rw [hmem, hdp]
  · unfold CacheManager.get_spy_data
    rw [hspy, hds]
    simp

/-- C2 (witness): the amended statement on a freshly initialised
cache over two malformed backing files. -/
theorem C2_witness :
    CacheManager.get_historical_data
      (CacheManager.State.init .malformed .malformed .absent) "TSLA"
      = .error .jsonDecodeError
    ∧ CacheManager.get_spy_data
        (CacheManager.State.init .malformed .malformed .absent)
      = .error .jsonDecodeError :=
  C2_amended _ _ rfl rfl rfl rfl

/-- C3 (code bug): after `set_historical_data("AAPL", 1)`,
`clear_cache` raises `AttributeError` (it reads
`self.historical_data_path`, an attribute `__init__` never defines)
before deleting any file; the in-memory mapping it does assign is a
different attribute than the one reads use, so a subsequent get still
returns the cached value and the backing file still exists. -/
theorem C3_clear_cache_bug :
    (CacheManager.clear_cache
      (CacheManager.set_historical_data
        (CacheManager.State.init .absent .absent .absent) "AAPL" (.num 1))).2
      = some .attributeError
    ∧ (CacheManager.clear_cache
        (CacheManager.set_historical_data
          (CacheManager.State.init .absent .absent .absent) "AAPL"
          (.num 1))).1.portfolio_historical_cache = [("AAPL", .num 1)]
    ∧ (CacheManager.clear_cache
        (CacheManager.set_historical_data
          (CacheManager.State.init .absent .absent .absent) "AAPL"
          (.num 1))).1.diskPortfolio = .wellFormed [("AAPL", .num 1)]
    ∧ CacheManager.get_historical_data
        (CacheManager.clear_cache
          (CacheManager.set_historical_data
            (CacheManager.State.init .absent .absent .absent) "AAPL"
            (.num 1))).1 "AAPL"
      = .ok (.num 1) := by
  refine ⟨rfl, rfl, rfl, ?_⟩
  simp [CacheManager.get_historical_data, CacheManager.clear_cache,
    CacheManager.set_historical_data, CacheManager.State.init,
    alookup, ainsert, JVal.truthy]

/-- C8: a historical bar delivered under a request id that is not in
the request-id→ticker table leaves the whole session state unchanged:
the bar is silently dropped. -/
theorem C8_unknown_reqId_frame (s : IBKRApp.State) (reqId : Nat)
    (bar : IBKRApp.Bar)
    (h : alookup s.historical_data_requests reqId = none) :
    IBKRApp.historicalData s reqId bar = s := by
  unfold IBKRApp.historicalData
  rw [h]

/-- C8 (witness): dropping a bar for the unknown request id 5 on a
fresh session state. -/
theorem C8_witness :
    IBKRApp.historicalData IBKRApp.State.init 5 ⟨"20240102", 100⟩
      = IBKRApp.State.init :=
  C8_unknown_reqId_frame _ _ _ rfl

/-- C9: every `updatePortfolio` callback issues a historical-data
request for the instrument (fresh id `reqId_counter + 1`, recorded
against the instrument's symbol) regardless of security type, while
`live_portfolio` gains the market value and currency exactly when the
security type is `"STK"` — otherwise it is left unchanged, so
non-stock instruments never appear in `get_live_portfolio`'s
snapshot. -/
theorem C9_updatePortfolio (s : IBKRApp.State) (c : IBKRApp.Contract)
    (mv : Rat) :
    (IBKRApp.updatePortfolio s c mv).2 = s.reqId_counter + 1
    ∧ (IBKRApp.updatePortfolio s c mv).1.reqId_counter
        = s.reqId_counter + 1
    ∧ alookup (IBKRApp.updatePortfolio s c mv).1.historical_data_requests
        (s.reqId_counter + 1) = some c.symbol
    ∧ (IBKRApp.updatePortfolio s c mv).1.live_portfolio
        = (if c.secType = "STK" then
            ainsert s.live_portfolio c.symbol
              { market_value := mv, currency := c.currency }
          else s.live_portfolio)
    ∧ (IBKRApp.updatePortfolio s c mv).1.historical_data
        = s.historical_data
    ∧ (IBKRApp.updatePortfolio s c mv).1.net_liquidation
        = s.net_liquidation := by
  by_cases h : c.secType = "STK" <;>
    simp [IBKRApp.updatePortfolio, IBKRApp.request_historical_data, h,
      alookup_ainsert_self]

/-- C4: on the historical-data domain and the SPY domain alike, a get
performed after a set with no intervening clear returns exactly the
written value — both when served from memory and, after a simulated
process restart wipes the in-memory copy, from the backing file; and
reads prefer memory: when the in-memory value is truthy the disk file
is never consulted (an arbitrary — even malformed — file does not
affect the result), while a falsy in-memory value falls back to
disk. -/
theorem C4_get_after_set (s : CacheManager.State) (t : String)
    (v : JVal) :
    CacheManager.get_historical_data
      (CacheManager.set_historical_data s t v) t = .ok v
    ∧ CacheManager.get_historical_data
        (CacheManager.restart (CacheManager.set_historical_data s t v)) t
      = .ok v
    ∧ CacheManager.get_spy_data (CacheManager.set_spy_data s v) = .ok v
    ∧ CacheManager.get_spy_data
        (CacheManager.restart (CacheManager.set_spy_data s v)) = .ok v
    ∧ CacheManager.get_historical_data
        { CacheManager.set_historical_data s t v with
            diskPortfolio := .malformed } t
      = (if v.truthy then .ok v else .error .jsonDecodeError) := by
  have hmem : alookup (ainsert s.portfolio_historical_cache t v) t
      = some v := alookup_ainsert_self _ _ _
  have hfall :
      CacheManager.disk_historical
        (CacheManager.set_historical_data s t v) t = .ok v := by
    unfold CacheManager.disk_historical CacheManager.set_historical_data
    simp [ainsert_isEmpty, hmem]
  refine ⟨?_, ?_, ?_, ?_, ?_⟩
  · unfold CacheManager.get_historical_data
    simp only [CacheManager.set_historical_data] at hfall ⊢
    rw [hmem]
    by_cases hv : v.truthy <;> simp [hv, hfall]
  · unfold CacheManager.get_historical_data CacheManager.restart
      CacheManager.State.init CacheManager.disk_historical
      CacheManager.set_historical_data
    simp [alookup, ainsert_isEmpty, hmem]
  · unfold CacheManager.get_spy_data CacheManager.set_spy_data
    by_cases hv : v.truthy <;> simp [hv]
  · unfold CacheManager.get_spy_data CacheManager.restart
      CacheManager.State.init CacheManager.set_spy_data
    simp [JVal.truthy]
  · unfold CacheManager.get_historical_data
      CacheManager.disk_historical CacheManager.set_historical_data
    rw [hmem]

/-- C6: two consecutive historical-data requests for the same
contract get the distinct, strictly increasing ids `n+1` and `n+2`,
both mapped to the same symbol; a bar delivered under the first id
and a bar with a different date delivered under the second id end up
together in that symbol's date→close series, neither overwriting the
other. -/
theorem C6_request_ids (s : IBKRApp.State) (c : IBKRApp.Contract)
    (d₁ d₂ : String) (p₁ p₂ : Rat) (hdate : d₁ ≠ d₂) :
    (IBKRApp.request_historical_data s c).2
        < (IBKRApp.request_historical_data
            (IBKRApp.request_historical_data s c).1 c).2
    ∧ alookup (IBKRApp.request_historical_data
          (IBKRApp.request_historical_data s c).1 c).1.historical_data_requests
        (IBKRApp.request_historical_data s c).2 = some c.symbol
    ∧ alookup (IBKRApp.request_historical_data
          (IBKRApp.request_historical_data s c).1 c).1.historical_data_requests
        (IBKRApp.request_historical_data
          (IBKRApp.request_historical_data s c).1 c).2 = some c.symbol
    ∧ (let s₂ := (IBKRApp.request_historical_data
          (IBKRApp.request_historical_data s c).1 c).1
       let s₃ := IBKRApp.historicalData s₂
          (IBKRApp.request_historical_data s c).2 ⟨d₁, p₁⟩
       let s₄ := IBKRApp.historicalData s₃
          (IBKRApp.request_historical_data
            (IBKRApp.request_historical_data s c).1 c).2 ⟨d₂, p₂⟩
       alookup s₄.historical_data c.symbol
         = some (ainsert (ainsert ((alookup s.historical_data c.symbol).getD [])
             d₁ p₁) d₂ p₂)
       ∧ alookup ((alookup s₄.historical_data c.symbol).getD []) d₁ = some p₁
       ∧ alookup ((alookup s₄.historical_data c.symbol).getD []) d₂ = some p₂) := by
  have hne : s.reqId_counter + 1 + 1 ≠ s.reqId_counter + 1 := by omega
  have hd' : d₂ ≠ d₁ := fun h => hdate h.symm
  have hreq₁ : alookup
      (ainsert (ainsert s.historical_data_requests
        (s.reqId_counter + 1) c.symbol)
        (s.reqId_counter + 1 + 1) c.symbol)
      (s.reqId_counter + 1) = some c.symbol := by
    rw [alookup_ainsert_ne _ _ _ _ hne, alookup_ainsert_self]
  refine ⟨by simp [IBKRApp.request_historical_data], ?_, ?_, ?_⟩
  · simpa [IBKRApp.request_historical_data] using hreq₁
  · simp [IBKRApp.request_historical_data, alookup_ainsert_self]
  · simp only [IBKRApp.request_historical_data, IBKRApp.historicalData]
    rw [hreq₁]
    simp only [alookup_ainsert_self, Option.getD_some]
    refine ⟨trivial, ?_, trivial⟩
    rw [alookup_ainsert_ne _ _ _ _ hd', alookup_ainsert_self]

/-- C6 (witness): the two-request, two-bar scenario on a fresh
session state for symbol "AAPL" with dates "20240101" ≠ "20240102". -/
theorem C6_witness :
    (IBKRApp.request_historical_data IBKRApp.State.init
        ⟨"AAPL", "STK", "USD"⟩).2
      < (IBKRApp.request_historical_data
          (IBKRApp.request_historical_data IBKRApp.State.init
            ⟨"AAPL", "STK", "USD"⟩).1 ⟨"AAPL", "STK", "USD"⟩).2 :=
  (C6_request_ids IBKRApp.State.init ⟨"AAPL", "STK", "USD"⟩
    "20240101" "20240102" 1 2 (by decide)).1

/-- C5: reconciling a committed portfolio {A, B} against a holdings
snapshot whose non-zero-weight tickers are {B, C} (A appears with
value 0, hence is treated as absent): A is removed and its historical
series discarded; B's weight and series are overwritten with the
snapshot values (its strategy kept); C's history is staged but C is
absent from the committed portfolio while no strategy has been
submitted, and present with the selected strategy once one is. -/
theorem C5_reconciliation (A B C : String)
    (eA eB : Portfolio.StockEntry) (hA₀ hB₀ hB hC : JVal) (wB wC : Rat)
    (lst : Option Timestamp) (now : Timestamp) (sel : String → String)
    (hAB : A ≠ B) (hAC : A ≠ C) (hBC : B ≠ C)
    (hwB : wB ≠ 0) (hwC : wC ≠ 0) :
    Portfolio.update_portfolio
        { portfolio := [(A, eA), (B, eB)]
          historical_data := [(A, hA₀), (B, hB₀)]
          last_refresh_time := none
          last_saved_time := lst }
        [(A, 0), (B, wB), (C, wC)] [(B, hB), (C, hC)] now false sel
      = .ok { portfolio := [(B, { weight := wB, strategy := eB.strategy })]
              historical_data := [(B, hB), (C, hC)]
              last_refresh_time := some now
              last_saved_time := lst }
    ∧ Portfolio.update_portfolio
        { portfolio := [(A, eA), (B, eB)]
          historical_data := [(A, hA₀), (B, hB₀)]
          last_refresh_time := none
          last_saved_time := lst }
        [(A, 0), (B, wB), (C, wC)] [(B, hB), (C, hC)] now true sel
      = .ok { portfolio :=
                [(B, { weight := wB, strategy := eB.strategy }),
                 (C, { weight := wC, strategy := sel C })]
              historical_data := [(B, hB), (C, hC)]
              last_refresh_time := some now
              last_saved_time := lst } := by
  have hBA : B ≠ A := fun h => hAB h.symm
  have hCA : C ≠ A := fun h => hAC h.symm
  have hCB : C ≠ B := fun h => hBC h.symm
  constructor <;>
    simp [Portfolio.update_portfolio, Portfolio.remove_stock,
      Portfolio.add_stock, Portfolio.update_stock,
      Portfolio.set_historical_data, pyIndex, alookup, ainsert, aerase,
      List.foldlM, except_bind_ok, hAB, hAC, hBC, hBA, hCA, hCB, hwB, hwC]

/-- C5 (witness): the reconciliation scenario at concrete tickers
AAPL/MSFT/GOOG with nonzero weights 3 and 4. -/
theorem C5_witness :
    Portfolio.update_portfolio
        { portfolio := [("AAPL", { weight := 1, strategy := "Hold" }),
                        ("MSFT", { weight := 2, strategy := "Hedge" })]
          historical_data := [("AAPL", .num 10), ("MSFT", .num 20)]
          last_refresh_time := none
          last_saved_time := none }
        [("AAPL", 0), ("MSFT", 3), ("GOOG", 4)]
        [("MSFT", .num 21), ("GOOG", .num 30)]
        ⟨2024, 1, 2, 3, 4, 5⟩ false (fun _ => "Long")
      = .ok { portfolio := [("MSFT", { weight := 3, strategy := "Hedge" })]
              historical_data := [("MSFT", .num 21), ("GOOG", .num 30)]
              last_refresh_time := some ⟨2024, 1, 2, 3, 4, 5⟩
              last_saved_time := none }
    ∧ Portfolio.update_portfolio
        { portfolio := [("AAPL", { weight := 1, strategy := "Hold" }),
                        ("MSFT", { weight := 2, strategy := "Hedge" })]
          historical_data := [("AAPL", .num 10), ("MSFT", .num 20)]
          last_refresh_time := none
          last_saved_time := none }
        [("AAPL", 0), ("MSFT", 3), ("GOOG", 4)]
        [("MSFT", .num 21), ("GOOG", .num 30)]
        ⟨2024, 1, 2, 3, 4, 5⟩ true (fun _ => "Long")
      = .ok { portfolio :=
                [("MSFT", { weight := 3, strategy := "Hedge" }),
                 ("GOOG", { weight := 4, strategy := "Long" })]
              historical_data := [("MSFT", .num 21), ("GOOG", .num 30)]
              last_refresh_time := some ⟨2024, 1, 2, 3, 4, 5⟩
              last_saved_time := none } :=
  C5_reconciliation "AAPL" "MSFT" "GOOG"
    { weight := 1, strategy := "Hold" } { weight := 2, strategy := "Hedge" }
    (.num 10) (.num 20) (.num 21) (.num 30) 3 4 none
    ⟨2024, 1, 2, 3, 4, 5⟩ (fun _ => "Long")
    (by decide) (by decide) (by decide) (by decide) (by decide)

/-- C7 (counterexample): `Portfolio.save_cache` writes a strategy
cache file (`cache/strategy.json`) that carries no
`last_cached_time` field at all — the timestamp key it writes is
`last_saved_time`. -/
theorem C7_counterexample :
    (Portfolio.save_cache
      { portfolio := [("AAPL", { weight := 1, strategy := "Hold" })]
        historical_data := []
        last_refresh_time := none
        last_saved_time := some ⟨2024, 1, 2, 3, 4, 5⟩ }
      ⟨2024, 1, 2, 3, 4, 6⟩).toOption.map
        (fun r => JVal.field r.1 "last_cached_time")
      = some none := rfl

/-- C7 (amended): strategy files written by
`CacheManager.set_strategy` do carry a `last_cached_time` string in
`%Y-%m-%d %H:%M:%S` format; the strategy file written by
`Portfolio.save_cache` instead carries the previous save time, in
the same format, under the key `last_saved_time`. -/
theorem C7_amended (s : CacheManager.State) (p : JVal) (now : Timestamp)
    (port : List (String × Portfolio.StockEntry))
    (hist : List (String × JVal)) (rt : Option Timestamp)
    (t₀ now' : Timestamp) :
    (CacheManager.set_strategy s p now).diskStrategy
      = .wellFormed { portfolio := p, last_cached_time := fmtTimestamp now }
    ∧ JVal.field (CacheManager.strategyFileJson p now) "last_cached_time"
      = some (.str (fmtTimestamp now))
    ∧ (Portfolio.save_cache ⟨port, hist, rt, some t₀⟩ now').toOption.map
        (fun r => (JVal.field r.1 "last_cached_time",
                   JVal.field r.1 "last_saved_time"))
      = some (none, some (.str (fmtTimestamp t₀))) :=
  ⟨rfl, rfl, rfl⟩

/-- C10: on a freshly constructed portfolio that never loaded a
strategy cache (`last_saved_time = None`), `save_cache` raises
(`None.strftime` → `AttributeError`) instead of writing the file;
when it does succeed, the timestamp persisted in the file is the
previous save time `t₀`, not the current time `now` — `now` is
assigned to `last_saved_time` only after the file is written. -/
theorem C10_save_cache (port : List (String × Portfolio.StockEntry))
    (hist : List (String × JVal)) (rt : Option Timestamp)
    (t₀ now : Timestamp) :
    Portfolio.save_cache ⟨port, hist, rt, none⟩ now
      = .error .attributeError
    ∧ Portfolio.save_cache ⟨port, hist, rt, some t₀⟩ now
      = .ok (.obj [("portfolio", Portfolio.encodePortfolio port),
                   ("last_saved_time", .str (fmtTimestamp t₀))],
             ⟨port, hist, rt, some now⟩) :=
  ⟨rfl, rfl⟩
